import Mathlib

/-!
Verification of the OSCKey message-dispatch and key-execution engine
(src/osckey.py) against its design specification.

The Python source is shallowly embedded below.  Pure per-message logic
(address resolution in `handle_keypress`, backend selection and the
press/release sequence in `press_key_combo`, top-level configuration
merging in `load_config`, the control-surface handlers) becomes
executable Lean functions.  Side effects are made explicit:

* keyboard events become a trace (`KeyEvent` list); an environment
  oracle (`KbdEnv.opFails`) says which pynput call raises, modelling
  internal failures that the source catches with `try/except`;
* the osascript invocation outcome is the environment bit `KbdEnv.asOk`
  (`press_key_with_applescript` catches its own exceptions and returns a
  boolean in every case, so the helper is summarized by that boolean);
* socket binding success is the environment bit `NetEnv.bindOk`, and an
  exception inside the body of `restart_osc_server` (shutdown / thread
  spawn) is `NetEnv.restartRaises`;
* Python string helpers (`str.lower`, `str.strip`, `str.split`,
  `str.startswith`, slicing, the `' ' in s` test) are embedded as
  character-list functions `pyLower`, `pyStrip`, `pySplit`,
  `pyStartsWith`, `strDrop`, `containsSpace`.
-/

namespace OSCKey

/-! ## Python string primitives -/

/-- Python `s.lower()` (ASCII case folding suffices for the vocabulary here). -/
def pyLower (s : String) : String := ⟨s.data.map Char.toLower⟩

/-- Python `s.strip()`: drop whitespace from both ends. -/
def pyStrip (s : String) : String :=
  ⟨((s.data.dropWhile Char.isWhitespace).reverse.dropWhile Char.isWhitespace).reverse⟩

/-- Helper for `pySplit`: walk the characters keeping an accumulator of the
current (reversed) token. -/
def pySplitAux : List Char → List Char → List String
  | [], acc => if acc.isEmpty then [] else [⟨acc.reverse⟩]
  | c :: cs, acc =>
    if c.isWhitespace then
      if acc.isEmpty then pySplitAux cs []
      else ⟨acc.reverse⟩ :: pySplitAux cs []
    else pySplitAux cs (c :: acc)

/-- Python `s.split()` with no separator: split on runs of whitespace,
dropping empty pieces. -/
def pySplit (s : String) : List String := pySplitAux s.data []

/-- Python `s.startswith(p)`. -/
def pyStartsWith (s p : String) : Bool := s.data.take p.data.length == p.data

/-- Python slicing `s[n:]`. -/
def strDrop (s : String) (n : Nat) : String := ⟨s.data.drop n⟩

/-- Python `' ' in s` (note: the space character only, not all whitespace). -/
def containsSpace (s : String) : Bool := s.data.contains ' '

/-! ## Key vocabulary (osckey.py lines 94-135) -/

/-- A pynput key object: either a member of the `Key` enum (named special
key) or a character/string key. -/
inductive PKey
  | special (name : String)
  | char (s : String)
deriving DecidableEq

/-- The `MODIFIERS` dict (source lines 95-104): modifier alias → `Key` object. -/
def MODIFIERS : List (String × PKey) :=
  [("command", .special "cmd"), ("cmd", .special "cmd"),
   ("option", .special "alt"), ("opt", .special "alt"), ("alt", .special "alt"),
   ("control", .special "ctrl"), ("ctrl", .special "ctrl"),
   ("shift", .special "shift")]

/-- The `SPECIAL_KEYS` dict (source lines 107-127). -/
def SPECIAL_KEYS : List (String × PKey) :=
  [("space", .special "space"), ("enter", .special "enter"),
   ("return", .special "enter"), ("tab", .special "tab"),
   ("backspace", .special "backspace"), ("delete", .special "delete"),
   ("esc", .special "esc"), ("escape", .special "esc"),
   ("up", .special "up"), ("down", .special "down"),
   ("left", .special "left"), ("right", .special "right"),
   ("home", .special "home"), ("end", .special "end"),
   ("pageup", .special "page_up"), ("pagedown", .special "page_down"),
   ("f1", .special "f1"), ("f2", .special "f2"), ("f3", .special "f3"),
   ("f4", .special "f4"), ("f5", .special "f5"), ("f6", .special "f6"),
   ("f7", .special "f7"), ("f8", .special "f8"), ("f9", .special "f9"),
   ("f10", .special "f10"), ("f11", .special "f11"), ("f12", .special "f12")]

/-- The `APPLESCRIPT_KEY_CODES` dict (source lines 130-135). -/
def APPLESCRIPT_KEY_CODES : List (String × Nat) :=
  [("left", 123), ("right", 124), ("down", 125), ("up", 126)]

/-! ## Configuration data model (osckey.py lines 54-90) -/

/-- One entry of `custom_shortcuts`.  Mirrors the JSON record
`{modifiers, key, description}`; the source reads it with
`shortcut.get("modifiers", [])` and `shortcut.get("key")`, which the
`Option`/default fields model. -/
structure Shortcut where
  modifiers : List String := []
  key : Option String := none
  description : Option String := none
deriving DecidableEq

/-- The process-wide configuration object (a Python dict with three
top-level keys).  `custom_shortcuts` is an association list mirroring the
JSON object (unique addresses, insertion-ordered). -/
structure Config where
  osc_port : Int
  osc_ip : String
  custom_shortcuts : List (String × Shortcut)
deriving DecidableEq

/-- `DEFAULT_CONFIG` (source lines 57-87). -/
def DEFAULT_CONFIG : Config :=
  { osc_port := 5005
    osc_ip := "0.0.0.0"
    custom_shortcuts :=
      [("/key/save", { modifiers := ["command"], key := some "s", description := some "Save" }),
       ("/key/copy", { modifiers := ["command"], key := some "c", description := some "Copy" }),
       ("/key/paste", { modifiers := ["command"], key := some "v", description := some "Paste" }),
       ("/key/undo", { modifiers := ["command"], key := some "z", description := some "Undo" }),
       ("/key/redo", { modifiers := ["command", "shift"], key := some "z", description := some "Redo" })] }

/-- A parsed configuration file as `json.load` returns it in `load_config`:
each of the three top-level keys may be present or absent. -/
structure LoadedConfig where
  osc_port : Option Int := none
  osc_ip : Option String := none
  custom_shortcuts : Option (List (String × Shortcut)) := none

/-- Python `config.update(loaded_config)` restricted to the configuration
schema: every top-level key present in the loaded document replaces the
base value wholesale; absent keys keep the base value. -/
def dictUpdate (base : Config) (loaded : LoadedConfig) : Config :=
  { osc_port := loaded.osc_port.getD base.osc_port
    osc_ip := loaded.osc_ip.getD base.osc_ip
    custom_shortcuts := loaded.custom_shortcuts.getD base.custom_shortcuts }

/-- `load_config` (source lines 188-202).  `fileExists` models
`os.path.exists(CONFIG_FILE)`; `parsed` models the outcome of reading and
`json.load`-ing the file; `base` is the global `config` at the time of the
call (at process start, a copy of `DEFAULT_CONFIG`).  On a read/parse
error the handler resets `config` to `DEFAULT_CONFIG.copy()`; when the
file is missing, `save_config()` runs and `config` is left as `base`. -/
def load_config (fileExists : Bool) (parsed : Except String LoadedConfig)
    (base : Config) : Config :=
  if fileExists then
    match parsed with
    | Except.ok loaded => dictUpdate base loaded
    | Except.error _ => DEFAULT_CONFIG
  else base

/-! ## Key executor (osckey.py lines 138-287) -/

/-- A single pynput keyboard call. -/
inductive KeyEvent
  | press (k : PKey)
  | release (k : PKey)
deriving DecidableEq

/-- Backend chosen by `press_key_combo`. -/
inductive Backend
  | applescript
  | direct
deriving DecidableEq

/-- Environment oracle for the key executor: which pynput calls raise an
exception, and whether the single osascript invocation made by
`press_key_with_applescript` reports success (exit status 0, no timeout,
no exception; that helper catches its own failures and returns a boolean
in every case). -/
structure KbdEnv where
  opFails : KeyEvent → Bool
  asOk : Bool

/-- Outcome of one `press_key_combo` call.

* `backend` — which backend the call selected;
* `events` — the pynput keyboard calls that actually happened, in order
  (empty for the AppleScript backend);
* `completed` — `true` when the `try` body ran to completion without an
  exception (for the AppleScript branch: the helper returned `True`);
* `ret` — the Python return value of `press_key_combo`. -/
structure ExecResult where
  backend : Backend
  events : List KeyEvent
  completed : Bool
  ret : Option Bool
deriving DecidableEq

/-- Source lines 227-233: keep the `MODIFIERS[...]` objects of the
recognized modifier aliases; unknown tokens are logged and skipped. -/
def modifier_keys_of (modifiers : List String) : List PKey :=
  modifiers.filterMap fun m => MODIFIERS.lookup (pyLower m)

/-- Source lines 236-243: resolve the main key.  `if key:` is Python
truthiness, so `None` and the empty string both yield no main key. -/
def main_key_of (key : Option String) : Option PKey :=
  match key with
  | none => none
  | some k =>
    if k == "" then none
    else
      match SPECIAL_KEYS.lookup (pyLower k) with
      | some sk => some sk
      | none => some (.char k)

/-- Source line 256: `key_lower = key.lower() if key else None`. -/
def key_lower_of (key : Option String) : Option String :=
  match key with
  | none => none
  | some k => if k == "" then none else some (pyLower k)

/-- Source line 257: `if key_lower in APPLESCRIPT_KEY_CODES and modifiers:`.
(`None in dict` is `False`; `modifiers` is truthy iff non-empty.) -/
def selects_applescript (modifiers : List String) (key : Option String) : Bool :=
  match key_lower_of key with
  | some kl => ((APPLESCRIPT_KEY_CODES.map Prod.fst).contains kl) && !modifiers.isEmpty
  | none => false

/-- Source lines 267-282: the planned pynput call sequence of the direct
backend — press the modifiers in table order, press/release the main key
if any, release the modifiers in reverse order.  (The two 10ms sleeps
cannot raise and produce no keyboard event, so they are omitted.) -/
def direct_ops (mks : List PKey) (mk : Option PKey) : List KeyEvent :=
  mks.map KeyEvent.press
    ++ (match mk with
        | some k => [KeyEvent.press k, KeyEvent.release k]
        | none => [])
    ++ mks.reverse.map KeyEvent.release

/-- Run a planned call sequence against the environment: each call either
succeeds (and is appended to the trace) or raises, in which case the
exception aborts the rest of the sequence; the pair is) the trace of calls
that happened and whether the whole sequence completed. -/
def runOps (env : KbdEnv) : List KeyEvent → List KeyEvent × Bool
  | [] => ([], true)
  | op :: rest =>
    if env.opFails op then ([], false)
    else
      let r := runOps env rest
      (op :: r.1, r.2)

/-- `press_key_combo` (source lines 215-287).  The whole body after key
translation sits in a `try` whose `except` only logs, so an exception from
a pynput call truncates the event trace but the function still returns
normally; every `return` statement in the source is a bare `return`, so
the Python return value is `None` on every path (`ret := none`). -/
def press_key_combo (env : KbdEnv) (modifiers : List String)
    (key : Option String) : ExecResult :=
  let mks := modifier_keys_of modifiers
  let mk := main_key_of key
  if selects_applescript modifiers key then
    { backend := .applescript, events := [], completed := env.asOk, ret := none }
  else
    let r := runOps env (direct_ops mks mk)
    { backend := .direct, events := r.1, completed := r.2, ret := none }

/-! ## Address resolver (osckey.py lines 290-351) -/

/-- An OSC argument as `handle_keypress` receives it: a string, or a
non-string value (int/float) carried together with its Python `str()`
rendering (only that rendering is ever used by the resolver). -/
inductive OscArg
  | str (s : String)
  | other (rendering : String)
deriving DecidableEq

/-- Python `str(arg)` for an OSC argument. -/
def oscArgStr : OscArg → String
  | .str s => s
  | .other r => r

/-- Outcome of one `handle_keypress` call:

* `pressed mods key` — the handler called `press_key_combo(mods, key)`;
* `noArguments` — early return with the "No arguments provided" warning;
* `noValidKey` — return with the "No valid key or modifier found" warning. -/
inductive ResolveResult
  | pressed (modifiers : List String) (key : Option String)
  | noArguments
  | noValidKey
deriving DecidableEq

/-- Source lines 336-343: scan the argument tokens in order; a token whose
stripped, lowercased form is a `MODIFIERS` alias is accumulated (in its
stripped original case); the first token that is not becomes the key and
the loop breaks, discarding the rest. -/
def classify_args : List OscArg → List String × Option String
  | [] => ([], none)
  | a :: rest =>
    let argStr := pyStrip (oscArgStr a)
    if (MODIFIERS.lookup (pyLower argStr)).isSome then
      let r := classify_args rest
      (argStr :: r.1, r.2)
    else ([], some argStr)

/-- Python truthiness of the resolved `key` variable at source line 346
(`None` and `""` are falsy). -/
def keyTruthy : Option String → Bool
  | none => false
  | some k => !(k == "")

/-- Source lines 345-351: classify, then execute if a key or at least one
modifier was found, else warn. -/
def classify_and_finish (args : List OscArg) : ResolveResult :=
  let c := classify_args args
  if keyTruthy c.2 || !c.1.isEmpty then .pressed c.1 c.2 else .noValidKey

/-- Source lines 329-330: a single string argument containing a space is
split on whitespace runs before classification. -/
def split_single_spaced_arg (args : List OscArg) : List OscArg :=
  match args with
  | [OscArg.str s] =>
    if containsSpace s then (pySplit s).map OscArg.str else [OscArg.str s]
  | _ => args

/-- Classification of a non-empty argument list (source lines 329-351). -/
def resolve_args (args : List OscArg) : ResolveResult :=
  classify_and_finish (split_single_spaced_arg args)

/-- `handle_keypress` (source lines 290-351), as the resolution outcome:
exact shortcut-table lookup first (arguments ignored), then the
reserved-prefix fallback for an empty argument list, then argument
classification. -/
def handle_keypress (table : List (String × Shortcut)) (address : String)
    (args : List OscArg) : ResolveResult :=
  match table.lookup address with
  | some sc => .pressed sc.modifiers sc.key
  | none =>
    match args with
    | [] =>
      if pyStartsWith address "/key/" then
        let keyFromAddress := pyStrip (strDrop address 5)
        if keyFromAddress == "" then .noArguments
        else resolve_args [OscArg.str keyFromAddress]
      else .noArguments
    | _ :: _ => resolve_args args

/-! ## OSC listener lifecycle and control surface (osckey.py lines 364-423, 1043-1059) -/

/-- Whether the OSC listener ends up consuming datagrams. -/
inductive ServerState
  | running
  | stopped
deriving DecidableEq

/-- Environment for the networking code: whether binding the UDP socket at
the configured address succeeds, and whether the body of
`restart_osc_server` itself raises (shutdown / join / thread spawn). -/
structure NetEnv where
  bindOk : Bool
  restartRaises : Bool

/-- The `try` body of `start_osc_server` (source lines 368-386): build the
dispatcher, bind the server socket — which raises `OSError` when the port
is in use or the address is invalid — then serve forever. -/
def start_osc_server_body (env : NetEnv) : Except String ServerState :=
  if env.bindOk then Except.ok ServerState.running
  else Except.error "OSError: could not bind socket"

/-- `start_osc_server` (source lines 364-389): the `except` logs the error
and returns, so a bind failure leaves no listener running and is not
visible to the code that spawned this thread. -/
def start_osc_server (env : NetEnv) : ServerState :=
  match start_osc_server_body env with
  | Except.ok s => s
  | Except.error _ => ServerState.stopped

/-- `restart_osc_server` (source lines 392-423): stop and close the old
server, join its thread, sleep, spawn a daemon thread running
`start_osc_server`, sleep, `return True`.  The returned boolean is `False`
only when the body itself raises; the new thread's bind outcome is never
consulted.  Result: (returned boolean, state of the new listener). -/
def restart_osc_server (env : NetEnv) : Bool × ServerState :=
  if env.restartRaises then (false, ServerState.stopped)
  else (true, start_osc_server env)

/-- `update_osc_config` (source lines 1043-1059), the `setBindConfig`
control-surface handler, on the no-exception path: store the request
fields into the config (with the source's defaults for absent fields),
persist via `save_config()` (whole-document write, errors swallowed, so
the persisted document is the returned config), restart the server, and
answer with the restart boolean.  Result: (new persisted config, success
flag, response message). -/
def update_osc_config (env : NetEnv) (cfg : Config) (body_ip : Option String)
    (body_port : Option Int) : Config × Bool × String :=
  let cfg2 := { cfg with osc_ip := body_ip.getD "127.0.0.1",
                         osc_port := body_port.getD 5005 }
  let r := restart_osc_server env
  (cfg2, r.1, if r.1 then "Configuration updated" else "Failed to restart server")

/-! ## Concrete environments used by witnesses and counterexamples -/

/-- Keyboard environment in which every pynput call succeeds and the
osascript invocation succeeds. -/
def envOk : KbdEnv := { opFails := fun _ => false, asOk := true }

/-- Keyboard environment in which exactly the pynput press of the
character key "ab" raises (pynput rejects strings that are not a single
character), as happens for `press_key_combo(["command"], "ab")`. -/
def envStuck : KbdEnv :=
  { opFails := fun e => e == KeyEvent.press (PKey.char "ab"), asOk := true }

/-- A concrete parsed configuration file that sets `osc_port` and replaces
`custom_shortcuts` with a single entry, leaving `osc_ip` absent. -/
def loadedPortAndShortcuts : LoadedConfig :=
  { osc_port := some 9000
    custom_shortcuts := some [("/key/go", { key := some "g" })] }

/-! ## Helper lemmas -/

/-- When no pynput call raises, the whole planned sequence runs. -/
theorem runOps_all_ok (env : KbdEnv) (h : ∀ e, env.opFails e = false) :
    ∀ ops, runOps env ops = (ops, true) := by
  intro ops
  induction ops with
  | nil => rfl
  | cons op rest ih => simp [runOps, h, ih]

/-- The backend choice of `press_key_combo` is exactly the source's
line-257 test. -/
theorem press_key_combo_backend_eq (env : KbdEnv) (modifiers : List String)
    (key : Option String) :
    (press_key_combo env modifiers key).backend
      = if selects_applescript modifiers key then Backend.applescript
        else Backend.direct := by
  unfold press_key_combo
  split <;> rfl

/-- Membership in the keys of `APPLESCRIPT_KEY_CODES`, as a disjunction. -/
theorem arrow_contains (s : String) :
    ((APPLESCRIPT_KEY_CODES.map Prod.fst).contains s) = true
      ↔ (s = "left" ∨ s = "right" ∨ s = "down" ∨ s = "up") := by
  have h : APPLESCRIPT_KEY_CODES.map Prod.fst = ["left", "right", "down", "up"] := rfl
  rw [h]
  simp [List.contains]

/-- The line-257 condition holds exactly when the key is one of the four
arrow names (case-insensitively) and the modifier list is non-empty. -/
theorem selects_applescript_iff (modifiers : List String) (key : Option String) :
    selects_applescript modifiers key = true
      ↔ ((∃ k, key = some k ∧
            (pyLower k = "left" ∨ pyLower k = "right" ∨ pyLower k = "up" ∨
             pyLower k = "down"))
          ∧ modifiers ≠ []) := by
  cases key with
  | none =>
    constructor
    · intro h; exact absurd h (by simp [selects_applescript, key_lower_of])
    · rintro ⟨⟨k, hk, -⟩, -⟩; cases hk
  | some k =>
    by_cases hk : k = ""
    · subst hk
      constructor
      · intro h; exact absurd h (by simp [selects_applescript, key_lower_of])
      · rintro ⟨⟨k2, hk2, har⟩, -⟩
        injection hk2 with h2
        subst h2
        exact absurd har (by decide)
    · have hkl : key_lower_of (some k) = some (pyLower k) := by
        simp [key_lower_of, hk]
      constructor
      · intro h
        unfold selects_applescript at h
        rw [hkl, Bool.and_eq_true] at h
        obtain ⟨h1, h2⟩ := h
        refine ⟨⟨k, rfl, ?_⟩, ?_⟩
        · have := (arrow_contains (pyLower k)).mp h1
          tauto
        · intro hme
          rw [hme] at h2
          simp at h2
      · rintro ⟨⟨k2, hk2, har⟩, hm⟩
        injection hk2 with h2
        subst h2
        unfold selects_applescript
        rw [hkl, Bool.and_eq_true]
        refine ⟨(arrow_contains (pyLower k)).mpr (by tauto), ?_⟩
        cases modifiers with
        | nil => exact absurd rfl hm
        | cons a l => rfl

/-! ## Claim theorems -/

/-- Claim C1: for every address with an exact entry in the shortcut table
(`config["custom_shortcuts"]`), resolution with any argument list —
including a non-empty one — yields exactly the entry's configured
modifiers and key; the arguments are ignored and the exact match takes
precedence over the prefix fallback and argument classification. -/
theorem handle_keypress_exact_match (table : List (String × Shortcut))
    (address : String) (args : List OscArg) (sc : Shortcut)
    (h : table.lookup address = some sc) :
    handle_keypress table address args = ResolveResult.pressed sc.modifiers sc.key := by
  unfold handle_keypress
  rw [h]

/-- Witness for C1: the default table maps `/key/redo` to command+shift+Z,
and resolving `/key/redo` with a non-empty, unrelated argument list gives
exactly that, ignoring the arguments. -/
theorem handle_keypress_exact_match_witness :
    handle_keypress DEFAULT_CONFIG.custom_shortcuts "/key/redo"
        [OscArg.str "option", OscArg.other "7"]
      = ResolveResult.pressed ["command", "shift"] (some "z") :=
  handle_keypress_exact_match DEFAULT_CONFIG.custom_shortcuts "/key/redo"
    [OscArg.str "option", OscArg.other "7"]
    { modifiers := ["command", "shift"], key := some "z", description := some "Redo" }
    (by decide)

/-- Claim C6: in heuristic argument classification the tokens are examined
in order (stripped, lowercased); every leading token that is a modifier
alias is accumulated, the first token that is not becomes the key, and
classification stops there, so all later tokens are ignored. -/
theorem classify_args_leading_modifiers (ms : List String) (k : String)
    (rest : List OscArg)
    (hm : ms.all (fun m => (MODIFIERS.lookup (pyLower (pyStrip m))).isSome) = true)
    (hk : (MODIFIERS.lookup (pyLower (pyStrip k))).isSome = false) :
    classify_args (ms.map OscArg.str ++ OscArg.str k :: rest)
      = (ms.map pyStrip, some (pyStrip k)) := by
  induction ms with
  | nil =>
    simp only [List.map_nil, List.nil_append]
    unfold classify_args
    simp [oscArgStr, hk]
  | cons m ms ih =>
    simp only [List.all_cons, Bool.and_eq_true] at hm
    simp only [List.map_cons, List.cons_append]
    unfold classify_args
    simp [oscArgStr, hm.1, ih hm.2]

/-- Witness for C6: `["command","shift","z","extra"]` classifies to
modifiers command+shift and key `z`, with the trailing `"extra"` ignored. -/
theorem classify_args_leading_modifiers_witness :
    classify_args (["command", "shift"].map OscArg.str ++ OscArg.str "z" :: [OscArg.str "extra"])
      = (["command", "shift"], some "z") :=
  (classify_args_leading_modifiers ["command", "shift"] "z" [OscArg.str "extra"]
      (by decide) (by decide)).trans (by decide)

/-- Claim C7: the reserved-prefix fallback fires only when the argument
list is empty and the address has no exact table entry and starts with
"/key/"; a non-empty stripped remainder becomes the single synthetic
argument (resolution proceeds exactly as if that one string argument had
been supplied), and an empty remainder makes resolution fail with the
"No arguments provided" warning and no key press. -/
theorem handle_keypress_reserved_fallback (table : List (String × Shortcut))
    (address : String) (h1 : table.lookup address = none)
    (h2 : pyStartsWith address "/key/" = true) :
    (pyStrip (strDrop address 5) = "" →
        handle_keypress table address [] = ResolveResult.noArguments) ∧
    (pyStrip (strDrop address 5) ≠ "" →
        handle_keypress table address []
          = handle_keypress table address [OscArg.str (pyStrip (strDrop address 5))]) := by
  constructor
  · intro h3
    unfold handle_keypress
    rw [h1]
    simp [h2, h3]
  · intro h3
    unfold handle_keypress
    rw [h1]
    simp [h2, h3]

/-- Witness for C7: `/key/down` with no arguments (on a table without that
address) resolves to no modifiers and key "down". -/
theorem handle_keypress_reserved_fallback_witness :
    handle_keypress [] "/key/down" [] = ResolveResult.pressed [] (some "down") :=
  ((handle_keypress_reserved_fallback [] "/key/down" rfl (by decide)).2
      (by decide)).trans (by decide)

/-- Counterexample to claim C2 as stated: in the call
`press_key_combo(["command"], "ab")` the pynput press of the main key
raises (pynput rejects multi-character strings), the `except` at source
line 286 only logs, and the command modifier — pressed once before the
exception — is never released: the release count of the pressed modifier
is 0, not 1, on this internal-failure path. -/
theorem press_key_combo_stuck_modifier :
    (press_key_combo envStuck ["command"] (some "ab")).backend = Backend.direct ∧
    (press_key_combo envStuck ["command"] (some "ab")).completed = false ∧
    (press_key_combo envStuck ["command"] (some "ab")).events
        = [KeyEvent.press (PKey.special "cmd")] ∧
    (press_key_combo envStuck ["command"] (some "ab")).events.count
        (KeyEvent.release (PKey.special "cmd")) = 0 := by
  decide

/-- Claim C2, amended: on the direct backend, when no pynput call raises,
every pressed modifier is released exactly once, in reverse press order,
after the main key events — the trace is exactly presses in table order,
the optional main-key press/release, then the reverse-order releases.
When a call raises mid-sequence, the exception is caught (the function
still returns normally) but the modifiers pressed before it are not
released. -/
theorem press_key_combo_direct_success_unwind (env : KbdEnv)
    (modifiers : List String) (key : Option String)
    (hok : ∀ e, env.opFails e = false)
    (hdir : selects_applescript modifiers key = false) :
    (press_key_combo env modifiers key).events
        = (modifier_keys_of modifiers).map KeyEvent.press
          ++ (match main_key_of key with
              | some k => [KeyEvent.press k, KeyEvent.release k]
              | none => [])
          ++ ((modifier_keys_of modifiers).reverse.map KeyEvent.release) ∧
    (press_key_combo env modifiers key).completed = true := by
  refine ⟨?_, ?_⟩ <;>
    simp [press_key_combo, hdir, runOps_all_ok env hok, direct_ops]

/-- Witness for the amended C2: command+shift+S under a fault-free
environment presses cmd then shift, taps S, and releases shift then cmd. -/
theorem press_key_combo_direct_success_unwind_witness :
    (press_key_combo envOk ["command", "shift"] (some "s")).events
        = [KeyEvent.press (PKey.special "cmd"), KeyEvent.press (PKey.special "shift"),
           KeyEvent.press (PKey.char "s"), KeyEvent.release (PKey.char "s"),
           KeyEvent.release (PKey.special "shift"), KeyEvent.release (PKey.special "cmd")] :=
  ((press_key_combo_direct_success_unwind envOk ["command", "shift"] (some "s")
      (fun _ => rfl) (by decide)).1).trans (by decide)

/-- Counterexample to claim C4 as stated: a fault-free direct-backend call
completes without any exception, yet the Python return value of
`press_key_combo` is `None`, not the boolean `True` the claim requires
(every `return` in the function is a bare `return`). -/
theorem press_key_combo_returns_none_on_success :
    (press_key_combo envOk ["command"] (some "s")).completed = true ∧
    (press_key_combo envOk ["command"] (some "s")).ret = none ∧
    (press_key_combo envOk ["command"] (some "s")).ret ≠ some true := by
  decide

/-- Claim C4, amended: `press_key_combo` returns `None` on every path —
whichever backend is selected and whether or not an exception occurs (any
exception is caught by the handler at source line 286, so the function
always returns normally and nothing propagates to the caller); the
boolean produced by the scripting helper is consumed only for logging. -/
theorem press_key_combo_always_returns_none (env : KbdEnv)
    (modifiers : List String) (key : Option String) :
    (press_key_combo env modifiers key).ret = none := by
  unfold press_key_combo
  split <;> rfl

/-- Claim C5: the scripting (AppleScript) backend is selected if and only
if the key is one of the four arrow-key names (case-insensitively) and
the modifier list is non-empty; every other combination — including an
arrow key with no modifiers, and no key at all — uses the direct (pynput)
backend. -/
theorem press_key_combo_backend_choice (env : KbdEnv) (modifiers : List String)
    (key : Option String) :
    ((press_key_combo env modifiers key).backend = Backend.applescript
      ↔ ((∃ k, key = some k ∧
            (pyLower k = "left" ∨ pyLower k = "right" ∨ pyLower k = "up" ∨
             pyLower k = "down"))
          ∧ modifiers ≠ [])) ∧
    ((press_key_combo env modifiers key).backend = Backend.direct
      ↔ ¬ ((∃ k, key = some k ∧
            (pyLower k = "left" ∨ pyLower k = "right" ∨ pyLower k = "up" ∨
             pyLower k = "down"))
          ∧ modifiers ≠ [])) := by
  have hb := press_key_combo_backend_eq env modifiers key
  have hiff := selects_applescript_iff modifiers key
  cases h : selects_applescript modifiers key with
  | false =>
    rw [h] at hb hiff
    simp only [Bool.false_eq_true, if_false] at hb
    simp only [Bool.false_eq_true, false_iff] at hiff
    constructor
    · simp [hb, hiff]
    · simp [hb, hiff]
  | true =>
    rw [h] at hb hiff
    simp only [if_true] at hb
    simp only [true_iff] at hiff
    constructor
    · simp [hb, hiff]
    · simp [hb, hiff]

/-- Counterexample to claim C8 as stated: the split trigger in the source
is a space character (`' ' in args[0]`), not arbitrary whitespace.  The
single argument "command\tz" contains whitespace (a tab), yet it is not
split: the whole string becomes the key, whereas classifying its
whitespace-split tokens would give modifier "command" and key "z". -/
theorem handle_keypress_tab_not_split :
    ("command\tz".data.any Char.isWhitespace) = true ∧
    containsSpace "command\tz" = false ∧
    handle_keypress [] "/key/foo" [OscArg.str "command\tz"]
        = ResolveResult.pressed [] (some "command\tz") ∧
    handle_keypress [] "/key/foo" ((pySplit "command\tz").map OscArg.str)
        = ResolveResult.pressed ["command"] (some "z") := by
  decide

/-- Claim C8, amended: when exactly one argument is supplied, it is a
string, and it contains a space character, the argument is split on runs
of whitespace before classification; in particular when the split yields
at least two tokens (as for "command shift z"), resolution of the single
combined string is identical to resolution with the split tokens passed
as separate arguments.  (A single string whose only whitespace is
non-space, such as a tab, is not split.) -/
theorem handle_keypress_single_spaced_string (table : List (String × Shortcut))
    (address s : String) (h1 : table.lookup address = none)
    (h2 : containsSpace s = true) :
    handle_keypress table address [OscArg.str s]
        = classify_and_finish ((pySplit s).map OscArg.str) ∧
    (∀ x y restTokens, pySplit s = x :: y :: restTokens →
      handle_keypress table address [OscArg.str s]
        = handle_keypress table address ((pySplit s).map OscArg.str)) := by
  have hbase : handle_keypress table address [OscArg.str s]
      = classify_and_finish ((pySplit s).map OscArg.str) := by
    unfold handle_keypress
    rw [h1]
    simp [resolve_args, split_single_spaced_arg, h2]
  refine ⟨hbase, ?_⟩
  intro x y restTokens hsp
  rw [hbase]
  unfold handle_keypress
  rw [h1, hsp]
  simp [resolve_args, split_single_spaced_arg]

/-- Witness for the amended C8: the single string "command shift z"
resolves exactly like the three separate arguments, to modifiers
command+shift with key "z". -/
theorem handle_keypress_single_spaced_string_witness :
    handle_keypress [] "/key/foo" [OscArg.str "command shift z"]
        = handle_keypress [] "/key/foo"
            [OscArg.str "command", OscArg.str "shift", OscArg.str "z"] ∧
    handle_keypress [] "/key/foo" [OscArg.str "command shift z"]
        = ResolveResult.pressed ["command", "shift"] (some "z") := by
  have h := handle_keypress_single_spaced_string [] "/key/foo" "command shift z"
      rfl (by decide)
  exact ⟨(h.2 "command" "shift" ["z"] (by decide)).trans (by decide),
         h.1.trans (by decide)⟩

/-- Claim C3 (code bug): when the new socket cannot be bound (port in use
or invalid address), `start_osc_server` catches the `OSError` in the
spawned thread and only logs it, leaving no listener running, while
`restart_osc_server` — whose own body raised no exception — still returns
`True`; the failed rebuild is therefore reported to the control-surface
caller as success, contradicting the claim. -/
theorem restart_reports_success_despite_bind_failure :
    restart_osc_server { bindOk := false, restartRaises := false }
        = (true, ServerState.stopped) ∧
    start_osc_server { bindOk := false, restartRaises := false }
        = ServerState.stopped := by
  decide

/-- Claim C9 (code bug): `update_osc_config` performs no validation at all.
A request with port 80 — outside the range [1024, 65535] — is stored in
the configuration, persisted by `save_config()`, and answered with
success, instead of being rejected with a failure result. -/
theorem update_osc_config_no_port_validation :
    update_osc_config { bindOk := false, restartRaises := false } DEFAULT_CONFIG
        (some "0.0.0.0") (some 80)
      = ({ DEFAULT_CONFIG with osc_ip := "0.0.0.0", osc_port := 80 },
         true, "Configuration updated") ∧
    ¬ (1024 ≤ (80 : Int) ∧ (80 : Int) ≤ 65535) := by
  decide

/-- Claim C10: when the configuration file exists and parses, `load_config`
merges it into the built-in defaults by a top-level dictionary update:
each of the three top-level fields, when present in the file, replaces the
default value wholesale (for `custom_shortcuts`, the entire mapping, never
a per-entry merge with the default entries), and when absent keeps the
built-in default. -/
theorem load_config_top_level_update (loaded : LoadedConfig) :
    (∀ ip, loaded.osc_ip = some ip →
        (load_config true (Except.ok loaded) DEFAULT_CONFIG).osc_ip = ip) ∧
    (loaded.osc_ip = none →
        (load_config true (Except.ok loaded) DEFAULT_CONFIG).osc_ip
          = DEFAULT_CONFIG.osc_ip) ∧
    (∀ p, loaded.osc_port = some p →
        (load_config true (Except.ok loaded) DEFAULT_CONFIG).osc_port = p) ∧
    (loaded.osc_port = none →
        (load_config true (Except.ok loaded) DEFAULT_CONFIG).osc_port
          = DEFAULT_CONFIG.osc_port) ∧
    (∀ cs, loaded.custom_shortcuts = some cs →
        (load_config true (Except.ok loaded) DEFAULT_CONFIG).custom_shortcuts = cs) ∧
    (loaded.custom_shortcuts = none →
        (load_config true (Except.ok loaded) DEFAULT_CONFIG).custom_shortcuts
          = DEFAULT_CONFIG.custom_shortcuts) := by
  refine ⟨?_, ?_, ?_, ?_, ?_, ?_⟩
  · intro ip hip; simp [load_config, dictUpdate, hip]
  · intro hip; simp [load_config, dictUpdate, hip]
  · intro p hp; simp [load_config, dictUpdate, hp]
  · intro hp; simp [load_config, dictUpdate, hp]
  · intro cs hcs; simp [load_config, dictUpdate, hcs]
  · intro hcs; simp [load_config, dictUpdate, hcs]

/-- Witness for C10: a file that sets only `osc_port` and a one-entry
`custom_shortcuts` yields that port, the default `osc_ip`, and exactly the
file's single shortcut entry (the five default entries are replaced
wholesale, not merged). -/
theorem load_config_top_level_update_witness :
    (load_config true (Except.ok loadedPortAndShortcuts) DEFAULT_CONFIG).osc_port
        = 9000 ∧
    (load_config true (Except.ok loadedPortAndShortcuts) DEFAULT_CONFIG).osc_ip
        = DEFAULT_CONFIG.osc_ip ∧
    (load_config true (Except.ok loadedPortAndShortcuts) DEFAULT_CONFIG).custom_shortcuts
        = [("/key/go", { key := some "g" })] := by
  obtain ⟨-, hipNone, hpSome, -, hcsSome, -⟩ :=
    load_config_top_level_update loadedPortAndShortcuts
  exact ⟨hpSome 9000 rfl, hipNone rfl, hcsSome [("/key/go", { key := some "g" })] rfl⟩

end OSCKey
